import Mathlib

/-!
Shallow embedding of `discord_components/button.py`: the `ButtonStyle`
constants, the `Button` record with its validated constructor and property
setters, and the wire (de)serialization functions `to_dict` / `from_json`.

Python conventions are made explicit:
* optional strings are `Option String`; Python truthiness of such a value
  (`None` and `""` are falsy) is `optStrTruthy`;
* exceptions become `Except PyErr`, where `PyErr` distinguishes the
  `discord.InvalidArgument` raised by the module from the `KeyError` raised
  by a missing dict key;
* the nondeterministic `uuid1()` call is a `fresh : String` parameter of the
  constructor, and the `randint` generator outcome is a `roll : Int`
  parameter of `randomColor`;
* the `emoji` argument of the constructor and of the emoji setter can be, at
  runtime, a guild `Emoji`, a `PartialEmoji`, a `str`, `None`, or any other
  object; the tagged union `EmojiInput` covers these cases, with the Python
  truthiness of the "other object" case kept as a flag.
-/

/-- Errors surfacing from the Python code: `discord.InvalidArgument` with its
message, or a `KeyError` from indexing a dict with a missing key. -/
inductive PyErr where
  | invalidArgument (msg : String)
  | keyError (key : String)
deriving DecidableEq, Repr

/-- Python truthiness of an optional string: `None` and `""` are falsy,
every other string is truthy. -/
def optStrTruthy : Option String → Bool
  | Option.none => false
  | some s => !(s == "")

namespace ButtonStyle

def blue : Int := 1

def gray : Int := 2

def grey : Int := 2

def green : Int := 3

def red : Int := 4

def URL : Int := 5

/-- Modelled from the spec: `random.randint(a, b)` is an external collaborator
(Python standard library, not part of this repository); it returns an integer
uniformly drawn from the inclusive range `[a, b]`.  We expose the generator
outcome as an arbitrary integer `roll` and fold it into the range. -/
def randint (a b roll : Int) : Int := a + roll % (b - a + 1)

/-- `ButtonStyle.randomColor`: `randint(1, cls.red)`. -/
def randomColor (roll : Int) : Int := randint 1 red roll

/-- `ButtonStyle.to_dict`: the name-to-code mapping export. -/
def to_dict : List (String × Int) :=
  [("blue", blue), ("gray", gray), ("green", green), ("red", red), ("URL", URL)]

end ButtonStyle

/-- `discord.PartialEmoji` (an external collaborator): a name, an animated
flag defaulting to false, and an optional numeric id. -/
structure PartialEmoji where
  name : String
  animated : Bool
  id : Option Nat
deriving DecidableEq, Repr

/-- The wire value stored under the `"emoji"` key: `name` is required,
`animated` and `id` are optional keys. -/
structure EmojiDict where
  name : String
  animated : Option Bool
  id : Option Nat
deriving DecidableEq, Repr

/-- Modelled from the spec: `discord.PartialEmoji.to_dict` (external
collaborator) produces the wire emoji value `{name, animated?, id?}` — the
`animated` key is emitted only when the flag is set, the `id` key only when
an id is present. -/
def PartialEmoji.to_dict (e : PartialEmoji) : EmojiDict :=
  { name := e.name
  , animated := if e.animated then some true else Option.none
  , id := e.id }

/-- The possible runtime values of an `emoji` argument: a guild
`discord.Emoji`, a `discord.PartialEmoji`, a plain string, `None`, or an
object of any other type (carrying only its Python truthiness). -/
inductive EmojiInput where
  | emoji (name : String) (animated : Bool) (eid : Option Nat)
  | partialE (p : PartialEmoji)
  | str (s : String)
  | none
  | other (truthy : Bool)
deriving DecidableEq, Repr

/-- Python truthiness of an emoji argument: `None` is falsy, `""` is falsy,
`Emoji` and `PartialEmoji` instances are truthy objects, and other objects
carry their own truthiness. -/
def EmojiInput.truthy : EmojiInput → Bool
  | .emoji _ _ _ => true
  | .partialE _ => true
  | .str s => !(s == "")
  | .none => false
  | .other t => t

/-- The `isinstance` cascade of `Button.__init__` normalizing the raw emoji
argument into the stored `Optional[PartialEmoji]`. -/
def EmojiInput.normalize : EmojiInput → Option PartialEmoji
  | .emoji n a i => some { name := n, animated := a, id := i }
  | .partialE p => some p
  | .str s => some { name := s, animated := false, id := Option.none }
  | .none => Option.none
  | .other _ => Option.none

/-- The `Button` record: the six slots `_style, _label, _id, _url, _disabled,
_emoji` (the read properties return them unchanged, so we use the property
names). -/
structure Button where
  style : Int
  label : Option String
  id : Option String
  url : Option String
  disabled : Bool
  emoji : Option PartialEmoji
deriving DecidableEq, Repr

/-- The id assignment of `Button.__init__`: `id or str(uuid1())` when the
style is not URL, `None` otherwise.  `fresh` stands for the `str(uuid1())`
outcome. -/
def Button.initId (style : Int) (id : Option String) (fresh : String) :
    Option String :=
  if style = ButtonStyle.URL then Option.none
  else if optStrTruthy id then id else some fresh

/-- `Button.__init__`: validation checks in source order, emoji
normalization, then the id assignment. -/
def Button.init (label : Option String) (style : Int) (id : Option String)
    (url : Option String) (disabled : Bool) (emoji : EmojiInput)
    (fresh : String) : Except PyErr Button :=
  if style = ButtonStyle.URL ∧ optStrTruthy url = false then
    .error (.invalidArgument "You must provide a URL when the style is set to URL.")
  else if style = ButtonStyle.URL ∧ optStrTruthy id = true then
    .error (.invalidArgument "Both ID and URL are set.")
  else if ¬(1 ≤ style ∧ style ≤ ButtonStyle.URL) then
    .error (.invalidArgument "Style must be between 1, 5.")
  else if optStrTruthy label = false ∧ emoji.truthy = false then
    .error (.invalidArgument "Label or emoji must be given.")
  else
    .ok { style := style
        , label := label
        , id := Button.initId style id fresh
        , url := url
        , disabled := disabled
        , emoji := emoji.normalize }

/-- The wire map for a button.  `type` is emitted by `to_dict` and ignored by
`from_json`; `style` is mandatory for `from_json` (`data["style"]`), all the
other keys are read with `.get` and hence optional. -/
structure WireDict where
  type : Option Int
  style : Option Int
  label : Option String
  custom_id : Option String
  url : Option String
  disabled : Option Bool
  emoji : Option EmojiDict
deriving DecidableEq, Repr

/-- `Button.to_dict`: the url is masked to `None` unless the style is URL,
and the emoji key is present exactly when an emoji is stored. -/
def Button.to_dict (b : Button) : WireDict :=
  { type := some 2
  , style := some b.style
  , label := b.label
  , custom_id := b.id
  , url := if b.style = ButtonStyle.URL then b.url else Option.none
  , disabled := some b.disabled
  , emoji := match b.emoji with
             | some e => some e.to_dict
             | Option.none => Option.none }

/-- `Button.from_json`: `data["style"]` raises `KeyError` when absent; the
other keys are optional (`.get`, `disabled` defaulting to `False`); a present
emoji dict is rebuilt into a `PartialEmoji` with `animated` defaulting to
`False` and `id` read optionally. -/
def Button.from_json (data : WireDict) (fresh : String) : Except PyErr Button :=
  match data.style with
  | Option.none => .error (.keyError "style")
  | some s =>
    Button.init data.label s data.custom_id data.url (data.disabled.getD false)
      (match data.emoji with
       | some ed => .partialE { name := ed.name
                              , animated := ed.animated.getD false
                              , id := ed.id }
       | Option.none => .none)
      fresh

/-- The `style` property setter. -/
def Button.setStyle (b : Button) (value : Int) : Except PyErr Button :=
  if value = ButtonStyle.URL ∧ optStrTruthy b.id = true then
    .error (.invalidArgument "Both ID and URL are set.")
  else if ¬(1 ≤ value ∧ value ≤ ButtonStyle.URL) then
    .error (.invalidArgument "Style must be between 1, 5.")
  else
    .ok { b with style := value }

/-- The `label` property setter. -/
def Button.setLabel (b : Button) (value : Option String) : Except PyErr Button :=
  if optStrTruthy value = false ∧ b.emoji = Option.none then
    .error (.invalidArgument "Label should not be empty.")
  else
    .ok { b with label := value }

/-- The `url` property setter. -/
def Button.setUrl (b : Button) (value : Option String) : Except PyErr Button :=
  if optStrTruthy value = true ∧ b.style ≠ ButtonStyle.URL then
    .error (.invalidArgument "Button style is not URL. You shouldn't provide URL.")
  else
    .ok { b with url := value }

/-- The `id` property setter. -/
def Button.setId (b : Button) (value : Option String) : Except PyErr Button :=
  if b.style = ButtonStyle.URL then
    .error (.invalidArgument "Button style is set to URL. You shouldn't provide ID.")
  else
    .ok { b with id := value }

/-- The `disabled` property setter. -/
def Button.setDisabled (b : Button) (value : Bool) : Except PyErr Button :=
  .ok { b with disabled := value }

/-- The `emoji` property setter: assigns a `PartialEmoji` directly, wraps a
string, and silently ignores every other value. -/
def Button.setEmoji (b : Button) (value : EmojiInput) : Except PyErr Button :=
  match value with
  | .partialE p => .ok { b with emoji := some p }
  | .str s => .ok { b with emoji := some { name := s, animated := false, id := Option.none } }
  | _ => .ok b

/-- A mutation step: one property-setter call with its argument. -/
inductive Op where
  | setStyle (v : Int)
  | setLabel (v : Option String)
  | setUrl (v : Option String)
  | setId (v : Option String)
  | setDisabled (v : Bool)
  | setEmoji (v : EmojiInput)
deriving DecidableEq, Repr

/-- Apply one setter call to a button. -/
def Button.applyOp (b : Button) : Op → Except PyErr Button
  | .setStyle v => b.setStyle v
  | .setLabel v => b.setLabel v
  | .setUrl v => b.setUrl v
  | .setId v => b.setId v
  | .setDisabled v => b.setDisabled v
  | .setEmoji v => b.setEmoji v

/-- Run a sequence of setter calls, stopping at the first error. -/
def Button.execOps (b : Button) : List Op → Except PyErr Button
  | [] => .ok b
  | op :: ops =>
    match b.applyOp op with
    | .ok b2 => b2.execOps ops
    | .error e => .error e

/-- The four invariants exactly as the spec states them (section 3):
1. `style == Link ⇒ url is non-empty AND identifier is absent`;
2. `style != Link ⇒ identifier is present AND url is absent`;
3. `label is non-empty OR emoji is present`;
4. `style ∈ [1,5]`. -/
def specInvariants (b : Button) : Prop :=
  (b.style = ButtonStyle.URL → optStrTruthy b.url = true ∧ b.id = Option.none) ∧
  (b.style ≠ ButtonStyle.URL → optStrTruthy b.id = true ∧ b.url = Option.none) ∧
  (optStrTruthy b.label = true ∨ b.emoji ≠ Option.none) ∧
  (1 ≤ b.style ∧ b.style ≤ 5)

instance (b : Button) : Decidable (specInvariants b) := by
  unfold specInvariants; infer_instance

/-! ## Helper lemmas -/

instance : DecidableEq (Except PyErr Button) := fun a b =>
  match a, b with
  | .error e1, .error e2 => decidable_of_iff (e1 = e2) (by simp)
  | .ok b1, .ok b2 => decidable_of_iff (b1 = b2) (by simp)
  | .error _, .ok _ => isFalse (by simp)
  | .ok _, .error _ => isFalse (by simp)

lemma init_ok_iff {label : Option String} {style : Int} {id url : Option String}
    {disabled : Bool} {emoji : EmojiInput} {fresh : String} {b : Button} :
    Button.init label style id url disabled emoji fresh = .ok b ↔
    (¬(style = ButtonStyle.URL ∧ optStrTruthy url = false) ∧
     ¬(style = ButtonStyle.URL ∧ optStrTruthy id = true) ∧
     (1 ≤ style ∧ style ≤ ButtonStyle.URL) ∧
     ¬(optStrTruthy label = false ∧ EmojiInput.truthy emoji = false) ∧
     b = { style := style, label := label, id := Button.initId style id fresh,
           url := url, disabled := disabled, emoji := emoji.normalize }) := by
  unfold Button.init
  split_ifs with h1 h2 h3 h4
  · exact iff_of_false (by simp) (fun hc => hc.1 h1)
  · exact iff_of_false (by simp) (fun hc => hc.2.1 h2)
  · exact iff_of_false (by simp) (fun hc => hc.2.2.2.1 h4)
  · simp only [Except.ok.injEq]
    constructor
    · intro h
      exact ⟨h1, h2, h3, h4, h.symm⟩
    · rintro ⟨-, -, -, -, hb⟩
      exact hb.symm
  · exact iff_of_false (by simp) (fun hc => h3 hc.2.2.1)

lemma setStyle_ok_iff {b : Button} {v : Int} {b2 : Button} :
    b.setStyle v = .ok b2 ↔
    (¬(v = ButtonStyle.URL ∧ optStrTruthy b.id = true) ∧
     (1 ≤ v ∧ v ≤ ButtonStyle.URL) ∧ b2 = { b with style := v }) := by
  unfold Button.setStyle
  split_ifs with h1 h2
  · exact iff_of_false (by simp) (fun hc => hc.1 h1)
  · simp only [Except.ok.injEq]
    constructor
    · intro h
      exact ⟨h1, h2, h.symm⟩
    · rintro ⟨-, -, hb⟩
      exact hb.symm
  · exact iff_of_false (by simp) (fun hc => h2 hc.2.1)

lemma setLabel_ok_iff {b : Button} {v : Option String} {b2 : Button} :
    b.setLabel v = .ok b2 ↔
    (¬(optStrTruthy v = false ∧ b.emoji = Option.none) ∧
     b2 = { b with label := v }) := by
  unfold Button.setLabel
  split_ifs with h1
  · exact iff_of_false (by simp) (fun hc => hc.1 h1)
  · simp only [Except.ok.injEq]
    constructor
    · intro h
      exact ⟨h1, h.symm⟩
    · rintro ⟨-, hb⟩
      exact hb.symm

lemma setUrl_ok_iff {b : Button} {v : Option String} {b2 : Button} :
    b.setUrl v = .ok b2 ↔
    (¬(optStrTruthy v = true ∧ b.style ≠ ButtonStyle.URL) ∧
     b2 = { b with url := v }) := by
  unfold Button.setUrl
  split_ifs with h1
  · exact iff_of_false (by simp) (fun hc => hc.1 h1)
  · simp only [Except.ok.injEq]
    constructor
    · intro h
      exact ⟨h1, h.symm⟩
    · rintro ⟨-, hb⟩
      exact hb.symm

lemma setId_ok_iff {b : Button} {v : Option String} {b2 : Button} :
    b.setId v = .ok b2 ↔
    (b.style ≠ ButtonStyle.URL ∧ b2 = { b with id := v }) := by
  unfold Button.setId
  split_ifs with h1
  · exact iff_of_false (by simp) (fun hc => hc.1 h1)
  · simp only [Except.ok.injEq]
    constructor
    · intro h
      exact ⟨h1, h.symm⟩
    · rintro ⟨-, hb⟩
      exact hb.symm

/-- The part of the spec invariants that construction and every setter
actually maintain: the style is in range, and a URL-style button never holds
a truthy (non-empty) identifier. -/
def styleIdInv (b : Button) : Prop :=
  (1 ≤ b.style ∧ b.style ≤ 5) ∧
  (b.style = ButtonStyle.URL → optStrTruthy b.id = false)

lemma init_styleIdInv {label : Option String} {style : Int} {id url : Option String}
    {disabled : Bool} {emoji : EmojiInput} {fresh : String} {b : Button}
    (h : Button.init label style id url disabled emoji fresh = .ok b) :
    styleIdInv b := by
  obtain ⟨h1, h2, h3, h4, hb⟩ := init_ok_iff.mp h
  subst hb
  refine ⟨h3, fun hu => ?_⟩
  have hu2 : style = ButtonStyle.URL := hu
  show optStrTruthy (Button.initId style id fresh) = false
  rw [hu2]
  simp [Button.initId, optStrTruthy]

lemma applyOp_styleIdInv {b b2 : Button} {op : Op}
    (h : b.applyOp op = .ok b2) (hb : styleIdInv b) : styleIdInv b2 := by
  obtain ⟨hr, hu⟩ := hb
  cases op with
  | setStyle v =>
    obtain ⟨h1, h2, hb2⟩ := setStyle_ok_iff.mp h
    subst hb2
    refine ⟨h2, fun hv => ?_⟩
    rcases Bool.eq_false_or_eq_true (optStrTruthy b.id) with ht | hf
    · exact absurd ⟨hv, ht⟩ h1
    · exact hf
  | setLabel v =>
    obtain ⟨h1, hb2⟩ := setLabel_ok_iff.mp h
    subst hb2
    exact ⟨hr, hu⟩
  | setUrl v =>
    obtain ⟨h1, hb2⟩ := setUrl_ok_iff.mp h
    subst hb2
    exact ⟨hr, hu⟩
  | setId v =>
    obtain ⟨h1, hb2⟩ := setId_ok_iff.mp h
    subst hb2
    exact ⟨hr, fun hv => absurd hv h1⟩
  | setDisabled v =>
    simp only [Button.applyOp, Button.setDisabled, Except.ok.injEq] at h
    subst h
    exact ⟨hr, hu⟩
  | setEmoji v =>
    simp only [Button.applyOp, Button.setEmoji] at h
    cases v <;> simp only [Except.ok.injEq] at h <;> subst h <;> exact ⟨hr, hu⟩

lemma execOps_styleIdInv : ∀ (ops : List Op) {b b2 : Button},
    Button.execOps b ops = .ok b2 → styleIdInv b → styleIdInv b2
  | [], b, b2, h, hb => by
      simp only [Button.execOps, Except.ok.injEq] at h
      exact h ▸ hb
  | op :: ops, b, b2, h, hb => by
      simp only [Button.execOps] at h
      cases hop : b.applyOp op with
      | error e => rw [hop] at h; exact absurd h (by simp)
      | ok bmid => rw [hop] at h; exact execOps_styleIdInv ops h (applyOp_styleIdInv hop hb)

/-! ## C1 -/

/-- C1 (counterexample): the constructor accepts a url together with a
non-Link style and stores it, so a successfully constructed Button can
violate the stated invariant `style != Link ⇒ url is absent`. -/
theorem c1_counterexample :
    Button.init (some "a") 2 Option.none (some "http://x") false EmojiInput.none "u"
      = .ok (Button.mk 2 (some "a") (some "u") (some "http://x") false Option.none) ∧
    ¬ specInvariants (Button.mk 2 (some "a") (some "u") (some "http://x") false Option.none) :=
  ⟨by decide, by decide⟩

/-- C1 (amended): along every error-free sequence of constructor and setter
operations, the style-range invariant `style ∈ [1,5]` holds at all times,
and whenever `style == Link` the identifier is never a non-empty string; the
remaining parts of the stated invariants (url non-empty/absent, identifier
present, label-or-emoji) can be violated by successful operations. -/
theorem c1_style_invariant_always (label : Option String) (style : Int)
    (id url : Option String) (disabled : Bool) (emoji : EmojiInput)
    (fresh : String) (ops : List Op) (b0 b : Button)
    (hinit : Button.init label style id url disabled emoji fresh = .ok b0)
    (hops : Button.execOps b0 ops = .ok b) :
    (1 ≤ b.style ∧ b.style ≤ 5) ∧
    (b.style = ButtonStyle.URL → optStrTruthy b.id = false) :=
  execOps_styleIdInv ops hops (init_styleIdInv hinit)

/-- C1 witness: a concrete construction followed by a concrete setter call,
with the amended invariant evaluated at the result. -/
theorem c1_style_invariant_always_witness :
    Button.init (some "a") 2 Option.none Option.none false EmojiInput.none "u"
      = .ok (Button.mk 2 (some "a") (some "u") Option.none false Option.none) ∧
    Button.execOps (Button.mk 2 (some "a") (some "u") Option.none false Option.none)
      [Op.setDisabled true]
      = .ok (Button.mk 2 (some "a") (some "u") Option.none true Option.none) ∧
    ((1 ≤ (Button.mk 2 (some "a") (some "u") Option.none true Option.none).style ∧
      (Button.mk 2 (some "a") (some "u") Option.none true Option.none).style ≤ 5) ∧
     ((Button.mk 2 (some "a") (some "u") Option.none true Option.none).style = ButtonStyle.URL →
      optStrTruthy (Button.mk 2 (some "a") (some "u") Option.none true Option.none).id = false)) :=
  ⟨by decide, by decide,
    c1_style_invariant_always (some "a") 2 Option.none Option.none false EmojiInput.none "u"
      [Op.setDisabled true]
      (Button.mk 2 (some "a") (some "u") Option.none false Option.none)
      (Button.mk 2 (some "a") (some "u") Option.none true Option.none)
      (by decide) (by decide)⟩

/-! ## C3 -/

/-- C3: construction raises `InvalidArgument` if and only if the style is
URL with a falsy url, or the style is URL with a truthy identifier, or the
style is outside `[1,5]`, or both label and emoji are falsy; otherwise
construction succeeds with some Button. -/
theorem c3_init_error_iff (label : Option String) (style : Int)
    (id url : Option String) (disabled : Bool) (emoji : EmojiInput)
    (fresh : String) :
    ((∃ msg, Button.init label style id url disabled emoji fresh
        = .error (.invalidArgument msg)) ↔
      ((style = ButtonStyle.URL ∧ optStrTruthy url = false) ∨
       (style = ButtonStyle.URL ∧ optStrTruthy id = true) ∨
       ¬(1 ≤ style ∧ style ≤ 5) ∨
       (optStrTruthy label = false ∧ EmojiInput.truthy emoji = false))) ∧
    (¬((style = ButtonStyle.URL ∧ optStrTruthy url = false) ∨
       (style = ButtonStyle.URL ∧ optStrTruthy id = true) ∨
       ¬(1 ≤ style ∧ style ≤ 5) ∨
       (optStrTruthy label = false ∧ EmojiInput.truthy emoji = false)) →
      ∃ b, Button.init label style id url disabled emoji fresh = .ok b) := by
  unfold Button.init
  split_ifs with h1 h2 h3 h4
  · exact ⟨iff_of_true ⟨_, rfl⟩ (Or.inl h1), fun hn => absurd (Or.inl h1) hn⟩
  · exact ⟨iff_of_true ⟨_, rfl⟩ (Or.inr (Or.inl h2)),
      fun hn => absurd (Or.inr (Or.inl h2)) hn⟩
  · exact ⟨iff_of_true ⟨_, rfl⟩ (Or.inr (Or.inr (Or.inr h4))),
      fun hn => absurd (Or.inr (Or.inr (Or.inr h4))) hn⟩
  · refine ⟨iff_of_false (by simp) ?_, fun hn => ⟨_, rfl⟩⟩
    rintro (ha | hb | hc | hd)
    · exact h1 ha
    · exact h2 hb
    · exact hc h3
    · exact h4 hd
  · exact ⟨iff_of_true ⟨_, rfl⟩ (Or.inr (Or.inr (Or.inl h3))),
      fun hn => absurd (Or.inr (Or.inr (Or.inl h3))) hn⟩

/-- C3 witness: a valid construction succeeds and a construction with
neither label nor emoji fails with `InvalidArgument`. -/
theorem c3_init_error_iff_witness :
    (∃ b, Button.init (some "Go") 2 Option.none Option.none false
        EmojiInput.none "u" = .ok b) ∧
    (∃ msg, Button.init Option.none 2 Option.none Option.none false
        EmojiInput.none "u" = .error (.invalidArgument msg)) :=
  ⟨(c3_init_error_iff (some "Go") 2 Option.none Option.none false
      EmojiInput.none "u").2 (by decide),
   (c3_init_error_iff Option.none 2 Option.none Option.none false
      EmojiInput.none "u").1.mpr (by decide)⟩

/-! ## C4 -/

/-- C4: the style setter fails with `InvalidArgument` exactly when the new
value is URL while the current identifier is truthy, or the new value is
outside `[1,5]`; on success the result is the old button with only the style
field replaced (no other field is touched). -/
theorem c4_style_setter (b : Button) (v : Int) :
    ((∃ msg, b.setStyle v = .error (.invalidArgument msg)) ↔
      ((v = ButtonStyle.URL ∧ optStrTruthy b.id = true) ∨ ¬(1 ≤ v ∧ v ≤ 5))) ∧
    (∀ b2, b.setStyle v = .ok b2 → b2 = { b with style := v }) ∧
    (¬((v = ButtonStyle.URL ∧ optStrTruthy b.id = true) ∨ ¬(1 ≤ v ∧ v ≤ 5)) →
      b.setStyle v = .ok { b with style := v }) := by
  refine ⟨?_, ?_, ?_⟩
  · unfold Button.setStyle
    split_ifs with h1 h2
    · exact iff_of_true ⟨_, rfl⟩ (Or.inl h1)
    · refine iff_of_false (by simp) ?_
      rintro (ha | hb)
      · exact h1 ha
      · exact hb h2
    · exact iff_of_true ⟨_, rfl⟩ (Or.inr h2)
  · intro b2 h
    exact (setStyle_ok_iff.mp h).2.2
  · intro hn
    rcases not_or.mp hn with ⟨ha, hb⟩
    exact setStyle_ok_iff.mpr ⟨ha, not_not.mp hb, rfl⟩

/-- C4 witness: moving a URL-style button with no identifier to style 2
succeeds and keeps the stored url untouched; moving a button with a truthy
identifier to URL style fails. -/
theorem c4_style_setter_witness :
    (Button.mk 5 (some "a") Option.none (some "x") false Option.none).setStyle 2
      = .ok (Button.mk 2 (some "a") Option.none (some "x") false Option.none) ∧
    (∃ msg, (Button.mk 2 (some "a") (some "i") Option.none false Option.none).setStyle 5
      = .error (.invalidArgument msg)) :=
  ⟨(c4_style_setter (Button.mk 5 (some "a") Option.none (some "x") false Option.none) 2).2.2
      (by decide),
   (c4_style_setter (Button.mk 2 (some "a") (some "i") Option.none false Option.none) 5).1.mpr
      (by decide)⟩

/-! ## C5 -/

/-- C5: the emoji setter stores a `PartialEmoji` argument directly, wraps a
plain string as an emoji reference with that name, and for an argument of
any other runtime type (`None`, a guild `Emoji`, or any other object such as
the integer 42) it raises no error and leaves the button unchanged. -/
theorem c5_emoji_setter (b : Button) (p : PartialEmoji) (s : String) (t : Bool)
    (n : String) (a : Bool) (i : Option Nat) :
    b.setEmoji (EmojiInput.partialE p) = .ok { b with emoji := some p } ∧
    b.setEmoji (EmojiInput.str s)
      = .ok { b with emoji := some (PartialEmoji.mk s false Option.none) } ∧
    b.setEmoji (EmojiInput.other t) = .ok b ∧
    b.setEmoji EmojiInput.none = .ok b ∧
    b.setEmoji (EmojiInput.emoji n a i) = .ok b :=
  ⟨rfl, rfl, rfl, rfl, rfl⟩

/-! ## C6 -/

/-- C6: constructing with a non-Link style, no identifier and no url yields
a Button whose identifier is the freshly generated uuid string (non-empty
whenever the generator output is) and whose url is `None`; constructing with
the URL style (and some url) yields a Button whose identifier is `None`. -/
theorem c6_identifier_assignment (label : Option String) (style : Int)
    (disabled : Bool) (emoji : EmojiInput) (fresh : String) (u : String)
    (b b2 : Button) :
    (style ≠ ButtonStyle.URL → fresh ≠ "" →
      Button.init label style Option.none Option.none disabled emoji fresh = .ok b →
      b.id = some fresh ∧ optStrTruthy b.id = true ∧ b.url = Option.none) ∧
    (Button.init label ButtonStyle.URL Option.none (some u) disabled emoji fresh = .ok b2 →
      b2.id = Option.none) := by
  constructor
  · intro hs hf h
    obtain ⟨h1, h2, h3, h4, hb⟩ := init_ok_iff.mp h
    subst hb
    have hid : Button.initId style Option.none fresh = some fresh := by
      simp [Button.initId, hs, optStrTruthy]
    refine ⟨hid, ?_, rfl⟩
    show optStrTruthy (Button.initId style Option.none fresh) = true
    rw [hid]
    simp [optStrTruthy, hf]
  · intro h
    obtain ⟨h1, h2, h3, h4, hb⟩ := init_ok_iff.mp h
    subst hb
    show Button.initId ButtonStyle.URL Option.none fresh = Option.none
    simp [Button.initId]

/-- C6 witness: `style=2, label="Go"` with no id yields the generated id and
no url; `style=5 (URL), url="https://example.com", label="Visit"` yields no
identifier. -/
theorem c6_identifier_assignment_witness :
    ((Button.mk 2 (some "Go") (some "u1") Option.none false Option.none).id = some "u1" ∧
     optStrTruthy (Button.mk 2 (some "Go") (some "u1") Option.none false Option.none).id = true ∧
     (Button.mk 2 (some "Go") (some "u1") Option.none false Option.none).url = Option.none) ∧
    (Button.mk 5 (some "Visit") Option.none (some "https://example.com") false Option.none).id
      = Option.none :=
  ⟨(c6_identifier_assignment (some "Go") 2 false EmojiInput.none "u1" "x"
      (Button.mk 2 (some "Go") (some "u1") Option.none false Option.none)
      (Button.mk 5 (some "Visit") Option.none (some "https://example.com") false Option.none)).1
      (by decide) (by decide) (by decide),
   (c6_identifier_assignment (some "Visit") 5 false EmojiInput.none "u1" "https://example.com"
      (Button.mk 2 (some "Go") (some "u1") Option.none false Option.none)
      (Button.mk 5 (some "Visit") Option.none (some "https://example.com") false Option.none)).2
      (by decide)⟩

/-! ## C7 -/

/-- C7: serialization emits `url: None` for every button whose style is not
URL, whatever the stored url field holds; only for URL-style buttons is the
stored url emitted. -/
theorem c7_to_dict_url_masking (b : Button) :
    (b.style ≠ ButtonStyle.URL → (Button.to_dict b).url = Option.none) ∧
    (b.style = ButtonStyle.URL → (Button.to_dict b).url = b.url) := by
  constructor
  · intro h
    simp [Button.to_dict, h]
  · intro h
    simp [Button.to_dict, h]

/-- C7 witness: a style-2 button with an internally stored url still emits
`url: None`; a style-5 button emits its stored url. -/
theorem c7_to_dict_url_masking_witness :
    (Button.to_dict (Button.mk 2 (some "a") (some "i") (some "http://x") false Option.none)).url
      = Option.none ∧
    (Button.to_dict (Button.mk 5 (some "a") Option.none (some "http://x") false Option.none)).url
      = some "http://x" :=
  ⟨(c7_to_dict_url_masking (Button.mk 2 (some "a") (some "i") (some "http://x") false Option.none)).1
      (by decide),
   (c7_to_dict_url_masking (Button.mk 5 (some "a") Option.none (some "http://x") false Option.none)).2
      (by decide)⟩

/-! ## C8 -/

/-- C8: `randomColor` returns a value in `{1,2,3,4}` and never 5, for every
outcome of the underlying uniform integer generator. -/
theorem c8_randomColor_range (roll : Int) :
    (ButtonStyle.randomColor roll = 1 ∨ ButtonStyle.randomColor roll = 2 ∨
     ButtonStyle.randomColor roll = 3 ∨ ButtonStyle.randomColor roll = 4) ∧
    ButtonStyle.randomColor roll ≠ 5 := by
  unfold ButtonStyle.randomColor ButtonStyle.randint ButtonStyle.red
  omega

/-! ## C9 -/

/-- C9: for a successful construction with a non-Link style, a falsy
supplied identifier (absent or empty) is discarded in favour of the freshly
generated uuid string, and a truthy supplied identifier is preserved. -/
theorem c9_falsy_id_regenerated (label : Option String) (style : Int)
    (id url : Option String) (disabled : Bool) (emoji : EmojiInput)
    (fresh : String) (b : Button)
    (h : Button.init label style id url disabled emoji fresh = .ok b)
    (hs : style ≠ ButtonStyle.URL) :
    (optStrTruthy id = false → b.id = some fresh) ∧
    (optStrTruthy id = true → b.id = id) := by
  obtain ⟨h1, h2, h3, h4, hb⟩ := init_ok_iff.mp h
  subst hb
  constructor
  · intro hf
    show Button.initId style id fresh = some fresh
    simp [Button.initId, hs, hf]
  · intro ht
    show Button.initId style id fresh = id
    simp [Button.initId, hs, ht]

/-- C9 witness: a supplied empty-string identifier is replaced by the
generated one; a supplied non-empty identifier is kept. -/
theorem c9_falsy_id_regenerated_witness :
    (Button.mk 2 (some "a") (some "u9") Option.none false Option.none).id = some "u9" ∧
    (Button.mk 2 (some "a") (some "abc") Option.none false Option.none).id = some "abc" :=
  ⟨(c9_falsy_id_regenerated (some "a") 2 (some "") Option.none false EmojiInput.none "u9"
      (Button.mk 2 (some "a") (some "u9") Option.none false Option.none)
      (by decide) (by decide)).1 (by decide),
   (c9_falsy_id_regenerated (some "a") 2 (some "abc") Option.none false EmojiInput.none "u9"
      (Button.mk 2 (some "a") (some "abc") Option.none false Option.none)
      (by decide) (by decide)).2 (by decide)⟩

/-! ## C10 -/

/-- C10: `from_json` on a wire map without the `style` key fails with a
`KeyError`, never with `InvalidArgument`; every other wire key is optional,
defaulting to `None` for label, custom_id and url, to `False` for disabled
and to no-emoji for emoji. -/
theorem c10_from_json_keys (d : WireDict) (fresh : String) (s : Int) :
    (d.style = Option.none →
      Button.from_json d fresh = .error (.keyError "style") ∧
      ∀ msg, Button.from_json d fresh ≠ .error (.invalidArgument msg)) ∧
    (d.style = some s → d.label = Option.none → d.custom_id = Option.none →
     d.url = Option.none → d.disabled = Option.none → d.emoji = Option.none →
      Button.from_json d fresh
        = Button.init Option.none s Option.none Option.none false EmojiInput.none fresh) := by
  obtain ⟨ty, st, la, ci, ur, di, em⟩ := d
  constructor
  · intro h
    have h2 : st = Option.none := h
    subst h2
    refine ⟨rfl, fun msg hmsg => ?_⟩
    simp [Button.from_json] at hmsg
  · intro hstyle hl hc hu hd he
    have h1 : st = some s := hstyle
    have h2 : la = Option.none := hl
    have h3 : ci = Option.none := hc
    have h4 : ur = Option.none := hu
    have h5 : di = Option.none := hd
    have h6 : em = Option.none := he
    subst h1
    subst h2
    subst h3
    subst h4
    subst h5
    subst h6
    rfl

/-- C10 witness: an empty wire map fails with the style `KeyError`; a wire
map holding only `style = 2` is deserialized with all the defaults. -/
theorem c10_from_json_keys_witness :
    (Button.from_json
        (WireDict.mk Option.none Option.none Option.none Option.none Option.none
          Option.none Option.none) "u"
      = .error (.keyError "style") ∧
     ∀ msg, Button.from_json
        (WireDict.mk Option.none Option.none Option.none Option.none Option.none
          Option.none Option.none) "u"
      ≠ .error (.invalidArgument msg)) ∧
    Button.from_json
        (WireDict.mk Option.none (some 2) Option.none Option.none Option.none
          Option.none Option.none) "u"
      = Button.init Option.none 2 Option.none Option.none false EmojiInput.none "u" :=
  ⟨(c10_from_json_keys
      (WireDict.mk Option.none Option.none Option.none Option.none Option.none
        Option.none Option.none) "u" 0).1 (by decide),
   (c10_from_json_keys
      (WireDict.mk Option.none (some 2) Option.none Option.none Option.none
        Option.none Option.none) "u" 2).2
      (by decide) (by decide) (by decide) (by decide) (by decide) (by decide)⟩

/-! ## C2 -/

lemma emoji_to_dict_roundtrip (e : PartialEmoji) :
    PartialEmoji.mk e.to_dict.name (e.to_dict.animated.getD false) e.to_dict.id = e := by
  obtain ⟨n, a, i⟩ := e
  cases a <;> rfl

/-- C2: for every Button satisfying the stated invariants, deserializing its
serialization succeeds and returns a Button equal to the original in every
field (style, label, identifier, url, disabled, emoji). -/
theorem c2_roundtrip (b : Button) (fresh : String) (h : specInvariants b) :
    Button.from_json (Button.to_dict b) fresh = .ok b := by
  obtain ⟨hh1, hh2, hh3, hh4⟩ := h
  obtain ⟨style, label, id, url, disabled, emoji⟩ := b
  have h1 : style = ButtonStyle.URL → optStrTruthy url = true ∧ id = Option.none := hh1
  have h2 : style ≠ ButtonStyle.URL → optStrTruthy id = true ∧ url = Option.none := hh2
  have h3 : optStrTruthy label = true ∨ emoji ≠ Option.none := hh3
  have h4 : 1 ≤ style ∧ style ≤ 5 := hh4
  cases emoji with
  | none =>
    have hlab : optStrTruthy label = true := by
      rcases h3 with hl | he
      · exact hl
      · exact absurd rfl he
    simp only [Button.from_json, Button.to_dict, Option.getD_some]
    refine init_ok_iff.mpr ⟨?_, ?_, ?_, ?_, ?_⟩
    · rintro ⟨hs, hf⟩
      rw [if_pos hs] at hf
      rw [(h1 hs).1] at hf
      cases hf
    · rintro ⟨hs, ht⟩
      rw [(h1 hs).2] at ht
      simp [optStrTruthy] at ht
    · exact h4
    · rintro ⟨hf, -⟩
      rw [hlab] at hf
      cases hf
    · by_cases hs : style = ButtonStyle.URL
      · obtain ⟨hurl, hid⟩ := h1 hs
        subst hid
        simp [Button.initId, hs, EmojiInput.normalize]
      · obtain ⟨hid, hurl⟩ := h2 hs
        subst hurl
        simp [Button.initId, hs, hid, EmojiInput.normalize]
  | some e =>
    simp only [Button.from_json, Button.to_dict, Option.getD_some]
    refine init_ok_iff.mpr ⟨?_, ?_, ?_, ?_, ?_⟩
    · rintro ⟨hs, hf⟩
      rw [if_pos hs] at hf
      rw [(h1 hs).1] at hf
      cases hf
    · rintro ⟨hs, ht⟩
      rw [(h1 hs).2] at ht
      simp [optStrTruthy] at ht
    · exact h4
    · rintro ⟨-, ht⟩
      simp [EmojiInput.truthy] at ht
    · by_cases hs : style = ButtonStyle.URL
      · obtain ⟨hurl, hid⟩ := h1 hs
        subst hid
        simp [Button.initId, hs, EmojiInput.normalize, emoji_to_dict_roundtrip]
      · obtain ⟨hid, hurl⟩ := h2 hs
        subst hurl
        simp [Button.initId, hs, hid, EmojiInput.normalize, emoji_to_dict_roundtrip]

/-- C2 witness: the round trip evaluated on a concrete valid button with an
animated custom emoji. -/
theorem c2_roundtrip_witness :
    specInvariants (Button.mk 2 (some "go") (some "abc") Option.none false
      (some (PartialEmoji.mk "e" true (some 3)))) ∧
    Button.from_json (Button.to_dict (Button.mk 2 (some "go") (some "abc") Option.none false
      (some (PartialEmoji.mk "e" true (some 3))))) "zz"
      = .ok (Button.mk 2 (some "go") (some "abc") Option.none false
          (some (PartialEmoji.mk "e" true (some 3)))) :=
  ⟨by decide,
   c2_roundtrip (Button.mk 2 (some "go") (some "abc") Option.none false
      (some (PartialEmoji.mk "e" true (some 3)))) "zz" (by decide)⟩
